import Mathlib

/-
  Verification of the raicky-relay realtime bridge.

  Shallow embedding of the core session logic of the repository:
  * greeting selection (src/prompts/chat.ts, `buildInitialCallGreeting`)
  * the short-lived auth token codec (src/tokens/relay.ts `generateRelayAuthToken`
    and src/utils/auth.ts `validateAuth`)
  * the local token-bucket rate limiter (src/utils/rateLimiter.ts
    `rateLimitConsumeLocal`)
  * the client session bridge message queueing (src/realtime/client bridge,
    `createRealtimeClient`)
  * the Twilio session bridge state machine (src/realtime/twilioBridge.ts,
    `createTwilioRealtimeBridge`)

  JavaScript numbers are modelled as `Int` (media timestamps, epoch
  milliseconds) or `Rat` (fractional token-bucket arithmetic); JavaScript
  `null` and falsy checks are modelled with `Option` plus explicit falsy
  predicates; code that catches exceptions and degrades is modelled with
  `Option`-valued functions.
-/

namespace RaickyRelay

/-! ## Greeting selection — src/prompts/chat.ts -/

inductive CallDirection where
  | inbound
  | outbound
  | unknown
deriving DecidableEq, Repr

def BRAND_NAME : String := "GateFrames.com"

/-- The shared opening sentence of every greeting (`baseBrand` in the source). -/
def baseBrand : String :=
  "Hello, this is the \"" ++ BRAND_NAME ++ "\" A.I. assistant."

def voicemailScript : String :=
  baseBrand ++ " Sorry we missed you. I\x27m leaving a short voicemail now. " ++
  "If you have questions about \"" ++ BRAND_NAME ++
  "\" driveway gates, openers, or accessories, please call back or reply to this text and I\x27ll help right away. Have a great day!"

def inboundOpener : String :=
  baseBrand ++ " Thanks for calling! How can I help you today?"

def outboundOpener : String :=
  baseBrand ++ " I\x27m reaching out to help, what can I assist you with today?"

def fallbackOpener : String :=
  baseBrand ++ " How can I help?"

/-- Direct translation of `buildInitialCallGreeting` from src/prompts/chat.ts:
voicemail mode short-circuits to the voicemail script before any direction
check; otherwise the direction selects the opener. -/
def buildInitialCallGreeting (voicemailMode : Bool) (callDirection : CallDirection) : String :=
  if voicemailMode then voicemailScript
  else if callDirection = CallDirection.inbound then inboundOpener
  else if callDirection = CallDirection.outbound then outboundOpener
  else fallbackOpener

/-! ## Auth token codec — src/tokens/relay.ts and src/utils/auth.ts

The AES-GCM encrypt/decrypt round trip is platform crypto; the token is
modelled as its decoded payload record.  `validateAuth` receives
`none` when base64-decoding, decryption or JSON parsing fails (the source
catches every such exception and returns `false`), and `some payload` when
decoding succeeds. -/

structure AuthTokenPayload where
  iat : Int
  exp : Int
  origin : String
deriving DecidableEq, Repr

/-- Token lifetime used by `generateRelayAuthToken`: `5 * 60 * 1000` ms. -/
def tokenTtlMs : Int := 5 * 60 * 1000

/-- Clock-skew tolerance used by `validateAuth`: `30_000` ms. -/
def clockSkewToleranceMs : Int := 30000

/-- Payload built by `generateRelayAuthToken` (src/tokens/relay.ts line 37):
`{ iat: now, exp: now + 5 * 60 * 1000, origin, nonce }` (the random nonce
plays no role in validation and is omitted). -/
def generateRelayAuthToken (now : Int) (origin : String) : AuthTokenPayload :=
  { iat := now, exp := now + tokenTtlMs, origin := origin }

/-- The three rejection checks of `validateAuth` on a successfully decoded
payload, in source order: expiry, future-dated iat, origin mismatch. -/
def validateAuthPayload (decoded : AuthTokenPayload) (now : Int) (expectedOrigin : String) : Bool :=
  if decoded.exp < now then false
  else if decoded.iat > now + clockSkewToleranceMs then false
  else if decoded.origin ≠ expectedOrigin then false
  else true

/-- `validateAuth` never throws: every decode/decrypt/parse failure is caught
and becomes the `none` case, which yields the same bare `false` as every
in-payload rejection. -/
def validateAuth (decoded : Option AuthTokenPayload) (now : Int) (expectedOrigin : String) : Bool :=
  match decoded with
  | none => false
  | some p => validateAuthPayload p now expectedOrigin

/-! ## Rate limiter — src/utils/rateLimiter.ts, `rateLimitConsumeLocal`

The per-key bucket is modelled as `Option RateBucket` (the map entry for one
key; `none` = fresh key).  JavaScript float arithmetic is modelled with
exact rationals.  The probabilistic prune only deletes buckets that are full
and idle, which never applies to the key under test, and is omitted. -/

structure RateBucket where
  tokens : Rat
  lastRefill : Rat
  capacity : Rat
  refillPerMs : Rat
deriving DecidableEq, Repr

structure ConsumeResult where
  allowed : Bool
  retryAfterMs : Int
deriving DecidableEq, Repr

/-- Direct translation of `rateLimitConsumeLocal` for a single key: lazily
created bucket starting at `capacity - 1`, lazy refill by elapsed time,
clamp to capacity, admit by decrementing or reject with
`ceil((1 - tokens) / refillPerMs)`. -/
def rateLimitConsumeLocal (bucket? : Option RateBucket) (now capacity intervalMs : Rat) :
    ConsumeResult × RateBucket :=
  let refillPerMs := capacity / intervalMs
  match bucket? with
  | none =>
      ({ allowed := true, retryAfterMs := 0 },
       { tokens := capacity - 1, lastRefill := now, capacity := capacity, refillPerMs := refillPerMs })
  | some bucket =>
      let tokens0 := bucket.tokens + (now - bucket.lastRefill) * bucket.refillPerMs
      let tokens1 := if tokens0 > capacity then capacity else tokens0
      if tokens1 < 1 then
        ({ allowed := false, retryAfterMs := Int.ceil ((1 - tokens1) / refillPerMs) },
         { tokens := tokens1, lastRefill := now, capacity := capacity, refillPerMs := refillPerMs })
      else
        ({ allowed := true, retryAfterMs := 0 },
         { tokens := tokens1 - 1, lastRefill := now, capacity := capacity, refillPerMs := refillPerMs })

/-- Iterated calls to `rateLimitConsumeLocal` on one key, all at the same
instant `now` with the same capacity and interval, collecting the results. -/
def consumeRun (now capacity intervalMs : Rat) : Nat → Option RateBucket → List ConsumeResult × Option RateBucket
  | 0, b => ([], b)
  | n + 1, b =>
      let r := rateLimitConsumeLocal b now capacity intervalMs
      let rest := consumeRun now capacity intervalMs n (some r.2)
      (r.1 :: rest.1, rest.2)

/-! ## Client session bridge — `createRealtimeClient`

Inbound client messages are pushed onto `messageQueue` while the upstream
connect is pending and flushed, in order, in the connect continuation.  The
JavaScript event loop runs the connect continuation (flag flip plus flush
loop) atomically, so it is one transition.  `JSON.parse` of a client frame
is abstracted by a predicate `parseOk`; on success `messageHandler` forwards
the parsed event (modelled by the raw frame), on failure it logs and drops.
The source flush loop additionally skips a falsy (empty) dequeued string. -/

structure ClientState where
  connected : Bool
  messageQueue : List String
deriving DecidableEq, Repr

inductive ClientEvent where
  | clientMessage (data : String)
  | connectResolved
deriving DecidableEq, Repr

inductive ClientOut where
  | forwardUpstream (data : String)
deriving DecidableEq, Repr

/-- One step of the client bridge: the `serverSocket` message listener
(queue when not connected, forward when connected) and the post-connect
continuation (flip connected, flush the queue in order). -/
def clientStep (parseOk : String → Bool) (s : ClientState) : ClientEvent → ClientState × List ClientOut
  | ClientEvent.clientMessage data =>
      if s.connected then
        (s, if parseOk data then [ClientOut.forwardUpstream data] else [])
      else
        ({ s with messageQueue := s.messageQueue ++ [data] }, [])
  | ClientEvent.connectResolved =>
      ({ connected := true, messageQueue := [] },
       ((s.messageQueue.filter (fun m => m ≠ "")).filter parseOk).map ClientOut.forwardUpstream)

def clientInit : ClientState := { connected := false, messageQueue := [] }

def runClient (parseOk : String → Bool) : ClientState → List ClientEvent → ClientState × List ClientOut
  | s, [] => (s, [])
  | s, e :: es =>
      let r := clientStep parseOk s e
      let rest := runClient parseOk r.1 es
      (rest.1, r.2 ++ rest.2)

/-! ## Twilio session bridge — src/realtime/twilioBridge.ts

State and transitions of one `createTwilioRealtimeBridge` session after a
successful auth check.  Each mutable closure variable of the source becomes
a field of `BridgeState`; each event handler becomes a transition emitting
the messages it sends (to the Twilio socket or upstream) as `OutMsg` values.
`decodeBase64UrlUtf8` (platform `atob` plus UTF-8 decode, exceptions caught)
is abstracted as a parameter `f : String → Option String`.  The raw
upstream-socket listener (lines 201–225) duplicates the `server.*` handler
logic but is attached via `socket?.addEventListener` before the socket
exists, so the `server.*` handler is the one modelled; the per-event logic
of the two is identical. -/

structure TwilioCustomParameter where
  name : String
  value : String
deriving DecidableEq, Repr

inductive TwilioEvent where
  | start (streamSid : Option String) (customParameters : List TwilioCustomParameter)
  | media (timestamp : Int) (payload : String)
  | mark
  | other (event : String)
deriving DecidableEq, Repr

inductive UpstreamEvent where
  | audioDelta (itemId : Option String) (delta : String)
  | speechStarted
  | responseDone
  | other (type : String)
deriving DecidableEq, Repr

inductive OutMsg where
  | mediaToTwilio (payload : String)
  | markToTwilio
  | clearToTwilio
  | closeTwilio (code : Nat) (reason : String)
  | appendAudio (payload : String)
  | itemCreate (text : String)
  | responseCreate
  | truncateItem (itemId : String) (audioEndMs : Int)
  | sessionUpdate (instructions : Option String)
  | disconnectUpstream
  | armTimeLimitTimer
  | armTimeLimitFallback
deriving DecidableEq, Repr

structure BridgeState where
  streamSid : Option String
  latestMediaTimestamp : Int
  lastAssistantItem : Option String
  markQueue : List String
  responseStartTimestampTwilio : Option Int
  voicemailMode : Bool
  callDirection : CallDirection
  systemInstructionsOverride : Option String
  initialGreetingOverride : Option String
  initialUserMessageSent : Bool
  shouldSendInitialOnConnect : Bool
  connected : Bool
  twilioQueue : List TwilioEvent
  timeLimitClosing : Bool
deriving DecidableEq, Repr

/-- JavaScript falsy test on a nullable number (`null` and `0` are falsy). -/
def jsFalsyInt : Option Int → Bool
  | none => true
  | some v => v == 0

/-- JavaScript falsy test on a nullable string (`null` and `""` are falsy). -/
def jsFalsyStr : Option String → Bool
  | none => true
  | some v => v == ""

/-- Helper for JavaScript `String.prototype.includes` on char lists. -/
def includesAux (needle : List Char) : List Char → Bool
  | [] => needle.isPrefixOf ([] : List Char)
  | c :: cs => needle.isPrefixOf (c :: cs) || includesAux needle cs

/-- JavaScript `hay.includes(needle)`. -/
def jsIncludes (hay needle : String) : Bool :=
  includesAux needle.toList hay.toList

/-- Initial closure state of `createTwilioRealtimeBridge`, after reading the
provisional `direction` query parameter (lowercased by the source). -/
def initialBridgeState (directionParam : String) : BridgeState :=
  { streamSid := none
    latestMediaTimestamp := 0
    lastAssistantItem := none
    markQueue := []
    responseStartTimestampTwilio := none
    voicemailMode := false
    callDirection :=
      if directionParam = "inbound" then CallDirection.inbound
      else if directionParam = "outbound" then CallDirection.outbound
      else CallDirection.unknown
    systemInstructionsOverride := none
    initialGreetingOverride := none
    initialUserMessageSent := false
    shouldSendInitialOnConnect := false
    connected := false
    twilioQueue := []
    timeLimitClosing := false }

def FINAL_TIME_LIMIT_MESSAGE : String :=
  "Call time limit reached, please call again to continue chatting. Good bye."

/-- `sendMark` (lines 149–154): early return when no `streamSid`; otherwise
send a mark event and push `"responsePart"` onto the FIFO. -/
def sendMark (s : BridgeState) : BridgeState × List OutMsg :=
  match s.streamSid with
  | none => (s, [])
  | some _ => ({ s with markQueue := s.markQueue ++ ["responsePart"] }, [OutMsg.markToTwilio])

/-- `handleSpeechStartedEvent` (lines 156–171): guarded by a non-empty mark
FIFO and a latched (non-null) playback anchor; truncates the last assistant
item when one is known, clears the Twilio buffer, resets the FIFO and
anchors. -/
def handleSpeechStartedEvent (s : BridgeState) : BridgeState × List OutMsg :=
  match s.responseStartTimestampTwilio with
  | some t0 =>
      if s.markQueue.length > 0 then
        let elapsedTime := s.latestMediaTimestamp - t0
        let truncMsgs :=
          match s.lastAssistantItem with
          | some itemId => [OutMsg.truncateItem itemId elapsedTime]
          | none => []
        ({ s with markQueue := [], lastAssistantItem := none, responseStartTimestampTwilio := none },
         truncMsgs ++ [OutMsg.clearToTwilio])
      else (s, [])
  | none => (s, [])

/-- `sendInitialConversationItem` (lines 131–147): the boolean guard makes
dispatch at-most-once; a falsy greeting burns the guard without emitting. -/
def sendInitialConversationItem (s : BridgeState) : BridgeState × List OutMsg :=
  if s.initialUserMessageSent then (s, [])
  else
    let s1 := { s with initialUserMessageSent := true }
    let initialMessage := s1.initialGreetingOverride.getD ""
    if initialMessage = "" then (s1, [])
    else (s1, [OutMsg.itemCreate initialMessage, OutMsg.responseCreate])

/-- One iteration of the custom-parameter loop in the `start` case
(lines 254–270).  The source key is `p.name || p.key`, modelled as a single
`name` field; keys are lowercased, `amd` sets voicemail mode iff the
lowercased value contains "machine", `direction` only accepts
inbound/outbound, `sys` and `greet` base64url-decode their raw value with
exceptions mapping to null. -/
def processOneParam (f : String → Option String) (s : BridgeState) (p : TwilioCustomParameter) :
    BridgeState × List OutMsg :=
  let key := p.name.toLower
  let lowerValue := p.value.toLower
  if key = "amd" then
    ({ s with voicemailMode := jsIncludes lowerValue "machine" }, [])
  else if key = "direction" then
    (if lowerValue = "inbound" then { s with callDirection := CallDirection.inbound }
     else if lowerValue = "outbound" then { s with callDirection := CallDirection.outbound }
     else s, [])
  else if key = "sys" then
    match f p.value with
    | some v =>
        ({ s with systemInstructionsOverride := some v },
         if s.connected then [OutMsg.sessionUpdate (some v)] else [])
    | none => ({ s with systemInstructionsOverride := none }, [])
  else if key = "greet" then
    ({ s with initialGreetingOverride := f p.value }, [])
  else (s, [])

def processParams (f : String → Option String) : BridgeState → List TwilioCustomParameter → BridgeState × List OutMsg
  | s, [] => (s, [])
  | s, p :: ps =>
      let r := processOneParam f s p
      let rest := processParams f r.1 ps
      (rest.1, r.2 ++ rest.2)

/-- The greeting fallback after the parameter loop (lines 271–276): when
`initialGreetingOverride` is still falsy, build it from
`buildInitialCallGreeting` with the voicemail or greet wrapper. -/
def applyGreetingDefault (s : BridgeState) : BridgeState :=
  if jsFalsyStr s.initialGreetingOverride then
    let greetText := buildInitialCallGreeting s.voicemailMode s.callDirection
    let wrapped :=
      if s.voicemailMode then "Please say exactly: " ++ greetText
      else "Greet the user with \"" ++ greetText ++ "\""
    { s with initialGreetingOverride := some wrapped }
  else s

/-- The `start` case of the Twilio message handler (lines 249–283): latch
`streamSid`, run the parameter loop, default the greeting, then dispatch the
greeting if connected or set `shouldSendInitialOnConnect`; finally reset the
playback anchor and media clock and (re-)arm the hard time-limit timer. -/
def onStart (f : String → Option String) (s : BridgeState) (sid : Option String)
    (ps : List TwilioCustomParameter) : BridgeState × List OutMsg :=
  let s1 := { s with streamSid := sid }
  let r1 := processParams f s1 ps
  let s3 := applyGreetingDefault r1.1
  let r2 :=
    if s3.connected then sendInitialConversationItem s3
    else ({ s3 with shouldSendInitialOnConnect := true }, [])
  let s5 := { r2.1 with responseStartTimestampTwilio := none, latestMediaTimestamp := 0 }
  (s5, r1.2 ++ r2.2 ++ [OutMsg.armTimeLimitTimer])

/-- The `serverSocket` message handler (lines 233–297).  Every raw frame is
pushed onto `twilioQueue` when upstream is not yet connected (line 237),
then the event is dispatched by type: media updates the media clock and
forwards audio when connected; mark pops the FIFO head when non-empty;
unknown events are logged and ignored. -/
def onTwilioMessage (f : String → Option String) (s : BridgeState) (evt : TwilioEvent) :
    BridgeState × List OutMsg :=
  let s0 := if s.connected then s else { s with twilioQueue := s.twilioQueue ++ [evt] }
  match evt with
  | TwilioEvent.media ts payload =>
      let s1 := { s0 with latestMediaTimestamp := ts }
      if s1.connected then (s1, [OutMsg.appendAudio payload]) else (s1, [])
  | TwilioEvent.start sid ps => onStart f s0 sid ps
  | TwilioEvent.mark =>
      if s0.markQueue.length > 0 then ({ s0 with markQueue := s0.markQueue.tail }, [])
      else (s0, [])
  | TwilioEvent.other _ => (s0, [])

/-- The `server.*` upstream event handler (lines 173–199): audio deltas are
forwarded to Twilio (with a falsy-guarded playback-anchor latch, last-item
tracking and a mark); speech-started triggers barge-in handling unless in
voicemail mode; response.done closes immediately in voicemail mode and in
the time-limit-closing state.  An empty delta is falsy and skipped. -/
def onUpstreamEvent (s : BridgeState) (evt : UpstreamEvent) : BridgeState × List OutMsg :=
  match evt with
  | UpstreamEvent.audioDelta itemId delta =>
      if delta = "" then (s, [])
      else
        let s1 :=
          if jsFalsyInt s.responseStartTimestampTwilio then
            { s with responseStartTimestampTwilio := some s.latestMediaTimestamp }
          else s
        let s2 :=
          match itemId with
          | some i => { s1 with lastAssistantItem := some i }
          | none => s1
        let r := sendMark s2
        (r.1, OutMsg.mediaToTwilio delta :: r.2)
  | UpstreamEvent.speechStarted =>
      if s.voicemailMode then (s, []) else handleSpeechStartedEvent s
  | UpstreamEvent.responseDone =>
      let out1 :=
        if s.voicemailMode then [OutMsg.closeTwilio 1000 "voicemail complete", OutMsg.disconnectUpstream]
        else []
      let out2 :=
        if s.timeLimitClosing then [OutMsg.closeTwilio 1000 "time_limit", OutMsg.disconnectUpstream]
        else []
      (s, out1 ++ out2)
  | UpstreamEvent.other _ => (s, [])

/-- The continuation after `await realtimeClient.connect(...)` resolves
(lines 316–341): the connected flag flips, `initializeSession` sends one
session.update (instructions falling back to the default prompt when no
override, encoded here as the `Option`), a pending initial greeting is
dispatched, and the queued Twilio frames are flushed — only media frames
are re-sent as audio appends.  The JavaScript event loop runs this
continuation atomically. -/
def onConnectResolved (s : BridgeState) : BridgeState × List OutMsg :=
  let s1 := { s with connected := true }
  let out1 := [OutMsg.sessionUpdate s1.systemInstructionsOverride]
  let r2 :=
    if s1.shouldSendInitialOnConnect then
      let r := sendInitialConversationItem s1
      ({ r.1 with shouldSendInitialOnConnect := false }, r.2)
    else (s1, [])
  let out3 := r2.1.twilioQueue.filterMap fun e =>
    match e with
    | TwilioEvent.media _ payload => some (OutMsg.appendAudio payload)
    | _ => none
  ({ r2.1 with twilioQueue := [] }, out1 ++ r2.2 ++ out3)

/-- `sendFinalAndClose` (lines 71–93), fired by the hard time-limit timer:
guarded by `timeLimitClosing`, asks upstream to speak the exact closing
sentence and arms the 20s close fallback. -/
def sendFinalAndClose (s : BridgeState) : BridgeState × List OutMsg :=
  if s.timeLimitClosing then (s, [])
  else
    ({ s with timeLimitClosing := true },
     [OutMsg.itemCreate ("Please say exactly: " ++ FINAL_TIME_LIMIT_MESSAGE),
      OutMsg.responseCreate, OutMsg.armTimeLimitFallback])

/-- The events a live session can observe, each handled atomically on the
session's event loop. -/
inductive SessionEvent where
  | fromTwilio (e : TwilioEvent)
  | fromUpstream (e : UpstreamEvent)
  | connectResolved
  | timeLimitFired
deriving DecidableEq, Repr

def bridgeStep (f : String → Option String) (s : BridgeState) : SessionEvent → BridgeState × List OutMsg
  | SessionEvent.fromTwilio e => onTwilioMessage f s e
  | SessionEvent.fromUpstream e => onUpstreamEvent s e
  | SessionEvent.connectResolved => onConnectResolved s
  | SessionEvent.timeLimitFired => sendFinalAndClose s

def runBridge (f : String → Option String) : BridgeState → List SessionEvent → BridgeState × List OutMsg
  | s, [] => (s, [])
  | s, e :: es =>
      let r := bridgeStep f s e
      let rest := runBridge f r.1 es
      (rest.1, r.2 ++ rest.2)

/-- Number of `response.create` events in an output list.  In traces without
a time-limit firing, `response.create` is emitted only by
`sendInitialConversationItem`, so this counts initial-greeting dispatches. -/
def countResponseCreate (l : List OutMsg) : Nat :=
  l.count OutMsg.responseCreate

/-- A mid-utterance session: assistant audio queued and unacknowledged, the
playback anchor latched at caller media time 1000, latest caller media
timestamp 1350, the last assistant item known. -/
def midUtteranceState : BridgeState :=
  { initialBridgeState "" with
    streamSid := some "MZ123"
    markQueue := ["responsePart"]
    responseStartTimestampTwilio := some 1000
    latestMediaTimestamp := 1350
    lastAssistantItem := some "item_A" }

/-- The same mid-utterance session in voicemail mode. -/
def voicemailMidUtteranceState : BridgeState :=
  { initialBridgeState "" with
    streamSid := some "MZ123"
    markQueue := ["responsePart"]
    responseStartTimestampTwilio := some 1000
    latestMediaTimestamp := 1350
    lastAssistantItem := some "item_A"
    voicemailMode := true }

/-! ## Theorems -/

/-- C5: the greeting text is a function of (answeringMachineDetected,
callDirection): voicemail mode selects the voicemail script regardless of
direction; otherwise inbound, outbound and unknown select the inbound,
outbound and generic fallback openers respectively — and the voicemail
script is not a direction-specific opener. -/
theorem greeting_selection_matrix :
    buildInitialCallGreeting true CallDirection.inbound = voicemailScript ∧
    buildInitialCallGreeting true CallDirection.outbound = voicemailScript ∧
    buildInitialCallGreeting true CallDirection.unknown = voicemailScript ∧
    buildInitialCallGreeting false CallDirection.inbound = inboundOpener ∧
    buildInitialCallGreeting false CallDirection.outbound = outboundOpener ∧
    buildInitialCallGreeting false CallDirection.unknown = fallbackOpener ∧
    voicemailScript ≠ inboundOpener ∧
    voicemailScript ≠ outboundOpener ∧
    voicemailScript ≠ fallbackOpener :=
  ⟨rfl, rfl, rfl, rfl, rfl, rfl, by decide, by decide, by decide⟩

/-- C8: a token issued at `t0` for a context validates as true against the
same context at any time from issuance until the 5-minute ttl has elapsed,
and as false at any time after the ttl has elapsed. -/
theorem token_round_trip (t0 now : Int) (origin : String) :
    (t0 ≤ now → now ≤ t0 + tokenTtlMs →
      validateAuth (some (generateRelayAuthToken t0 origin)) now origin = true) ∧
    (t0 + tokenTtlMs < now →
      validateAuth (some (generateRelayAuthToken t0 origin)) now origin = false) := by
  simp only [validateAuth, validateAuthPayload, generateRelayAuthToken, tokenTtlMs,
    clockSkewToleranceMs]
  constructor
  · intro h1 h2
    rw [if_neg (by omega), if_neg (by omega), if_neg (by simp)]
  · intro h
    rw [if_pos (by omega)]

/-- Witness for C8 at concrete times: issuance at 0, validation at 1000
(inside the ttl) succeeds, validation at 300001 (one ms past the ttl)
fails. -/
theorem token_round_trip_witness :
    validateAuth (some (generateRelayAuthToken 0 "twilio")) 1000 "twilio" = true ∧
    validateAuth (some (generateRelayAuthToken 0 "twilio")) 300001 "twilio" = false :=
  ⟨(token_round_trip 0 1000 "twilio").1 (by decide) (by decide),
   (token_round_trip 0 300001 "twilio").2 (by decide)⟩

/-- C9: `validateAuth` (a total function — the source catches every
decode/decrypt/parse exception, modelled by the `none` case) returns the
same bare `false` for a failed decode, an expired token, a future-dated
token beyond the 30s skew tolerance, a wrong-context token, and in
particular a token issued for context `a` checked against any different
expected context. -/
theorem validate_auth_rejections (p : AuthTokenPayload) (now t0 : Int) (expectedOrigin a : String) :
    validateAuth none now expectedOrigin = false ∧
    (p.exp < now → validateAuth (some p) now expectedOrigin = false) ∧
    (p.iat > now + clockSkewToleranceMs → validateAuth (some p) now expectedOrigin = false) ∧
    (p.origin ≠ expectedOrigin → validateAuth (some p) now expectedOrigin = false) ∧
    (a ≠ expectedOrigin →
      validateAuth (some (generateRelayAuthToken t0 a)) now expectedOrigin = false) := by
  refine ⟨rfl, ?_, ?_, ?_, ?_⟩
  · intro h
    simp only [validateAuth, validateAuthPayload]
    rw [if_pos h]
  · intro h
    simp only [validateAuth, validateAuthPayload]
    split <;> simp_all
  · intro h
    simp only [validateAuth, validateAuthPayload]
    split <;> simp_all
  · intro h
    simp only [validateAuth, validateAuthPayload, generateRelayAuthToken]
    split <;> simp_all

/-- Witness for C9 at concrete inputs: failed decode, an expired payload, a
future-dated payload, a wrong-origin payload, and a token issued for
"client" validated against "twilio" all yield `false`. -/
theorem validate_auth_rejections_witness :
    validateAuth none 1000 "twilio" = false ∧
    validateAuth (some { iat := 0, exp := 500, origin := "twilio" }) 1000 "twilio" = false ∧
    validateAuth (some { iat := 40000, exp := 400000, origin := "twilio" }) 1000 "twilio" = false ∧
    validateAuth (some { iat := 0, exp := 400000, origin := "bogus" }) 1000 "twilio" = false ∧
    validateAuth (some (generateRelayAuthToken 0 "client")) 1000 "twilio" = false :=
  ⟨(validate_auth_rejections { iat := 0, exp := 500, origin := "twilio" } 1000 0 "twilio" "client").1,
   (validate_auth_rejections { iat := 0, exp := 500, origin := "twilio" } 1000 0 "twilio" "client").2.1 (by decide),
   (validate_auth_rejections { iat := 40000, exp := 400000, origin := "twilio" } 1000 0 "twilio" "client").2.2.1 (by decide),
   (validate_auth_rejections { iat := 0, exp := 400000, origin := "bogus" } 1000 0 "twilio" "client").2.2.2.1 (by decide),
   (validate_auth_rejections { iat := 0, exp := 500, origin := "twilio" } 1000 0 "twilio" "client").2.2.2.2 (by decide)⟩

/-- C2: on a caller-speech-started event from upstream, outside voicemail
mode, with a non-empty mark FIFO, a latched playback anchor and a known last
assistant item, the bridge sends upstream a truncate event with
`audio_end_ms = latestMediaTimestamp - responseStartTimestampTwilio`, sends
the Twilio socket a clear event, and resets the mark FIFO and both playback
anchors. -/
theorem barge_in_truncation (f : String → Option String) (s : BridgeState) (itemId : String)
    (t0 : Int) (hvm : s.voicemailMode = false) (hq : s.markQueue ≠ [])
    (ha : s.responseStartTimestampTwilio = some t0) (hi : s.lastAssistantItem = some itemId) :
    bridgeStep f s (SessionEvent.fromUpstream UpstreamEvent.speechStarted) =
      ({ s with markQueue := [], lastAssistantItem := none, responseStartTimestampTwilio := none },
       [OutMsg.truncateItem itemId (s.latestMediaTimestamp - t0), OutMsg.clearToTwilio]) := by
  have hlen : 0 < s.markQueue.length := List.length_pos.mpr hq
  simp [bridgeStep, onUpstreamEvent, hvm, handleSpeechStartedEvent, ha, hi, hlen]

/-- Witness for C2 at the claim's concrete numbers: anchor 1000, latest
caller media timestamp 1350 — the truncate event carries
`audio_end_ms = 350` and a clear event follows, with the FIFO and anchors
reset. -/
theorem barge_in_truncation_witness :
    bridgeStep (fun _ => none) midUtteranceState
        (SessionEvent.fromUpstream UpstreamEvent.speechStarted) =
      ({ midUtteranceState with
          markQueue := [], lastAssistantItem := none, responseStartTimestampTwilio := none },
       [OutMsg.truncateItem "item_A" 350, OutMsg.clearToTwilio]) := by
  have h := barge_in_truncation (fun _ => none) midUtteranceState "item_A" 1000
    rfl (by decide) rfl rfl
  simpa [midUtteranceState, initialBridgeState] using h

/-- C4: in voicemail mode a caller-speech-started event from upstream is a
complete no-op for every session state: no truncate, no clear, no state
change. -/
theorem voicemail_suppresses_barge_in (f : String → Option String) (s : BridgeState)
    (h : s.voicemailMode = true) :
    bridgeStep f s (SessionEvent.fromUpstream UpstreamEvent.speechStarted) = (s, []) := by
  simp [bridgeStep, onUpstreamEvent, h]

/-- Witness for C4 at a state where barge-in would otherwise fire: non-empty
mark FIFO, latched anchor, known assistant item — still a no-op because
voicemail mode is set. -/
theorem voicemail_suppresses_barge_in_witness :
    bridgeStep (fun _ => none) voicemailMidUtteranceState
        (SessionEvent.fromUpstream UpstreamEvent.speechStarted) =
      (voicemailMidUtteranceState, []) :=
  voicemail_suppresses_barge_in (fun _ => none) voicemailMidUtteranceState rfl

/-- Counterexample to C3: in voicemail mode, a response-done event closes
the Twilio socket with the "voicemail complete" reason in the very same
step even though the mark FIFO still holds an unacknowledged mark — there
is no drain wait, settle delay or fallback timer in this code path, so the
bridge does close while unacknowledged marks remain. -/
theorem voicemail_close_drain_counterexample :
    voicemailMidUtteranceState.markQueue = ["responsePart"] ∧
    (bridgeStep (fun _ => none) voicemailMidUtteranceState
        (SessionEvent.fromUpstream UpstreamEvent.responseDone)).2 =
      [OutMsg.closeTwilio 1000 "voicemail complete", OutMsg.disconnectUpstream] ∧
    (bridgeStep (fun _ => none) voicemailMidUtteranceState
        (SessionEvent.fromUpstream UpstreamEvent.responseDone)).1.markQueue =
      ["responsePart"] :=
  ⟨rfl, rfl, rfl⟩

/-- C3 as amended: in voicemail mode (and outside the time-limit-closing
state) a response-done event immediately emits a close of the Twilio socket
with the distinct "voicemail complete" reason followed by an upstream
disconnect, for every mark FIFO state and with no state change. -/
theorem voicemail_close_immediate (f : String → Option String) (s : BridgeState)
    (h : s.voicemailMode = true) (h2 : s.timeLimitClosing = false) :
    bridgeStep f s (SessionEvent.fromUpstream UpstreamEvent.responseDone) =
      (s, [OutMsg.closeTwilio 1000 "voicemail complete", OutMsg.disconnectUpstream]) := by
  simp [bridgeStep, onUpstreamEvent, h, h2]

/-- Witness for the amended C3: the close fires immediately at a state whose
mark FIFO is non-empty. -/
theorem voicemail_close_immediate_witness :
    bridgeStep (fun _ => none) voicemailMidUtteranceState
        (SessionEvent.fromUpstream UpstreamEvent.responseDone) =
      (voicemailMidUtteranceState,
       [OutMsg.closeTwilio 1000 "voicemail complete", OutMsg.disconnectUpstream]) :=
  voicemail_close_immediate (fun _ => none) voicemailMidUtteranceState rfl rfl

/-- Counterexample to C10: when no stream id has been latched
(`streamSid = none`), an assistant audio chunk is still forwarded to the
Twilio socket (the media event is emitted) but `sendMark` returns early and
pushes no marker, so "each assistant audio chunk forwarded pushes exactly
one marker" fails. -/
theorem mark_push_counterexample :
    (initialBridgeState "").streamSid = none ∧
    (bridgeStep (fun _ => none) (initialBridgeState "")
        (SessionEvent.fromUpstream (UpstreamEvent.audioDelta none "dGVzdA"))).2 =
      [OutMsg.mediaToTwilio "dGVzdA"] ∧
    (bridgeStep (fun _ => none) (initialBridgeState "")
        (SessionEvent.fromUpstream (UpstreamEvent.audioDelta none "dGVzdA"))).1.markQueue = [] :=
  ⟨rfl, rfl, rfl⟩

/-- C10 as amended: the mark FIFO discipline.  An assistant audio chunk
pushes exactly one marker when a stream id is latched and none otherwise
(the chunk is still forwarded); an echoed mark event pops exactly the FIFO
head when the FIFO is non-empty and is silently ignored (no output, FIFO
still empty) when it is empty; barge-in handling resets the FIFO to empty.
The FIFO is a Lean list, so its length is a natural number and can never be
negative, and every transition is total. -/
theorem mark_fifo_discipline (f : String → Option String) (s : BridgeState)
    (itemId? : Option String) (delta : String) (sid : String) (hd : delta ≠ "") :
    (s.streamSid = some sid →
      (bridgeStep f s (SessionEvent.fromUpstream (UpstreamEvent.audioDelta itemId? delta))).1.markQueue =
        s.markQueue ++ ["responsePart"]) ∧
    (s.streamSid = none →
      (bridgeStep f s (SessionEvent.fromUpstream (UpstreamEvent.audioDelta itemId? delta))).1.markQueue =
        s.markQueue) ∧
    (s.markQueue = [] →
      (bridgeStep f s (SessionEvent.fromTwilio TwilioEvent.mark)).1.markQueue = [] ∧
      (bridgeStep f s (SessionEvent.fromTwilio TwilioEvent.mark)).2 = []) ∧
    (s.markQueue ≠ [] →
      (bridgeStep f s (SessionEvent.fromTwilio TwilioEvent.mark)).1.markQueue = s.markQueue.tail) ∧
    (s.voicemailMode = false → s.markQueue ≠ [] → s.responseStartTimestampTwilio ≠ none →
      (bridgeStep f s (SessionEvent.fromUpstream UpstreamEvent.speechStarted)).1.markQueue = []) := by
  refine ⟨?_, ?_, ?_, ?_, ?_⟩
  · intro hsid
    cases itemId? <;> cases hjs : jsFalsyInt s.responseStartTimestampTwilio <;>
      simp [bridgeStep, onUpstreamEvent, hd, hjs, sendMark, hsid]
  · intro hsid
    cases itemId? <;> cases hjs : jsFalsyInt s.responseStartTimestampTwilio <;>
      simp [bridgeStep, onUpstreamEvent, hd, hjs, sendMark, hsid]
  · intro hq
    refine ⟨?_, ?_⟩ <;> cases hc : s.connected <;>
      simp [bridgeStep, onTwilioMessage, hq, hc]
  · intro hq
    have hlen : 0 < s.markQueue.length := List.length_pos.mpr hq
    cases hc : s.connected <;> simp [bridgeStep, onTwilioMessage, hlen, hc]
  · intro hvm hq ha
    have hlen : 0 < s.markQueue.length := List.length_pos.mpr hq
    match hr : s.responseStartTimestampTwilio with
    | none => exact absurd hr ha
    | some t0 => simp [bridgeStep, onUpstreamEvent, hvm, handleSpeechStartedEvent, hr, hlen]

/-- Witness for the amended C10 at a concrete mid-utterance state: push,
pop and barge-in reset all observed concretely. -/
theorem mark_fifo_discipline_witness :
    ((bridgeStep (fun _ => none) midUtteranceState
        (SessionEvent.fromUpstream (UpstreamEvent.audioDelta none "QQ"))).1.markQueue =
      ["responsePart", "responsePart"]) ∧
    ((bridgeStep (fun _ => none) midUtteranceState
        (SessionEvent.fromTwilio TwilioEvent.mark)).1.markQueue = []) ∧
    ((bridgeStep (fun _ => none) midUtteranceState
        (SessionEvent.fromUpstream UpstreamEvent.speechStarted)).1.markQueue = []) := by
  have h := mark_fifo_discipline (fun _ => none) midUtteranceState none "QQ" "MZ123"
    (by decide)
  refine ⟨?_, ?_, ?_⟩
  · have := h.1 rfl
    simpa [midUtteranceState, initialBridgeState] using this
  · have := h.2.2.2.1 (by decide)
    simpa [midUtteranceState, initialBridgeState] using this
  · exact h.2.2.2.2 rfl (by decide) (by decide)

/-- Splitting an iterated consume run into two runs. -/
theorem consumeRun_add (now capacity intervalMs : Rat) (m n : Nat) (b : Option RateBucket) :
    consumeRun now capacity intervalMs (m + n) b =
      ((consumeRun now capacity intervalMs m b).1 ++
        (consumeRun now capacity intervalMs n (consumeRun now capacity intervalMs m b).2).1,
       (consumeRun now capacity intervalMs n (consumeRun now capacity intervalMs m b).2).2) := by
  induction m generalizing b with
  | zero => simp [consumeRun]
  | succ k ih =>
      have hmn : k + 1 + n = (k + n) + 1 := by omega
      rw [hmn]
      simp only [consumeRun]
      rw [ih]
      simp

/-- With at least `n` whole tokens in the bucket and zero elapsed time, `n`
consecutive calls are all admitted and remove exactly `n` tokens. -/
theorem consumeRun_steady (capacity intervalMs t : Rat) (n : Nat) (q : Rat)
    (h1 : (n : Rat) ≤ q) (h2 : q ≤ capacity) :
    consumeRun t capacity intervalMs n
        (some { tokens := q, lastRefill := t, capacity := capacity,
                refillPerMs := capacity / intervalMs }) =
      (List.replicate n { allowed := true, retryAfterMs := 0 },
       some { tokens := q - n, lastRefill := t, capacity := capacity,
              refillPerMs := capacity / intervalMs }) := by
  induction n generalizing q with
  | zero => simp [consumeRun]
  | succ k ih =>
      have hk0 : (0 : Rat) ≤ (k : Rat) := Nat.cast_nonneg k
      have hk1 : (1 : Rat) ≤ q := by push_cast at h1; linarith
      have hstep :
          rateLimitConsumeLocal
              (some { tokens := q, lastRefill := t, capacity := capacity,
                      refillPerMs := capacity / intervalMs }) t capacity intervalMs =
            ({ allowed := true, retryAfterMs := 0 },
             { tokens := q - 1, lastRefill := t, capacity := capacity,
               refillPerMs := capacity / intervalMs }) := by
        simp only [rateLimitConsumeLocal, sub_self, zero_mul, add_zero]
        rw [if_neg (not_lt.mpr h2), if_neg (not_lt.mpr hk1)]
      simp only [consumeRun, hstep]
      have hk2 : (k : Rat) ≤ q - 1 := by push_cast at h1; linarith
      have hk3 : q - 1 ≤ capacity := by linarith
      rw [ih (q - 1) hk2 hk3]
      have hq : q - 1 - (k : Rat) = q - ((k + 1 : Nat) : Rat) := by push_cast; ring
      rw [hq]
      simp [List.replicate_succ]

/-- C7: for a fresh key, capacity `C ≥ 1` and interval `I > 0`, exactly `C`
consecutive zero-elapsed-time calls to `rateLimitConsumeLocal` are admitted
(the first initializing the bucket at `C - 1` tokens), the `(C+1)`-th call
is rejected, and a call `I` milliseconds later on the same key is admitted
again. -/
theorem rate_limiter_conservation (C : Nat) (hC : 1 ≤ C) (t I : Rat) (hI : 0 < I) :
    ((consumeRun t C I C none).1 = List.replicate C { allowed := true, retryAfterMs := 0 }) ∧
    ((consumeRun t C I (C + 1) none).1.map ConsumeResult.allowed =
      List.replicate C true ++ [false]) ∧
    ((rateLimitConsumeLocal (consumeRun t C I (C + 1) none).2 (t + I) C I).1.allowed = true) := by
  obtain ⟨D, rfl⟩ : ∃ D, C = D + 1 := ⟨C - 1, by omega⟩
  have hIne : I ≠ 0 := ne_of_gt hI
  have hC1 : (1 : Rat) ≤ ((D + 1 : Nat) : Rat) := by push_cast; linarith
  have hq : ((D + 1 : Nat) : Rat) - 1 = (D : Rat) := by push_cast; ring
  have hfresh :
      rateLimitConsumeLocal none t ((D + 1 : Nat) : Rat) I =
        ({ allowed := true, retryAfterMs := 0 },
         { tokens := (D : Rat), lastRefill := t, capacity := ((D + 1 : Nat) : Rat),
           refillPerMs := ((D + 1 : Nat) : Rat) / I }) := by
    simp only [rateLimitConsumeLocal]
    rw [hq]
  have hsteady := consumeRun_steady ((D + 1 : Nat) : Rat) I t D (D : Rat)
    (le_refl _) (by push_cast; linarith)
  rw [sub_self] at hsteady
  have hrunC : consumeRun t ((D + 1 : Nat) : Rat) I (D + 1) none =
      (List.replicate (D + 1) { allowed := true, retryAfterMs := 0 },
       some { tokens := 0, lastRefill := t, capacity := ((D + 1 : Nat) : Rat),
              refillPerMs := ((D + 1 : Nat) : Rat) / I }) := by
    simp only [consumeRun, hfresh]
    rw [hsteady]
    simp [List.replicate_succ]
  have hreject :
      rateLimitConsumeLocal
          (some { tokens := 0, lastRefill := t, capacity := ((D + 1 : Nat) : Rat),
                  refillPerMs := ((D + 1 : Nat) : Rat) / I }) t ((D + 1 : Nat) : Rat) I =
        ({ allowed := false,
           retryAfterMs := Int.ceil ((1 : Rat) / (((D + 1 : Nat) : Rat) / I)) },
         { tokens := 0, lastRefill := t, capacity := ((D + 1 : Nat) : Rat),
           refillPerMs := ((D + 1 : Nat) : Rat) / I }) := by
    simp only [rateLimitConsumeLocal, sub_self, zero_mul, add_zero, zero_add]
    rw [if_neg (show ¬ ((0 : Rat) > ((D + 1 : Nat) : Rat)) from not_lt.mpr (by positivity))]
    rw [if_pos (show (0 : Rat) < 1 by norm_num)]
    norm_num
  have hrunC1 : consumeRun t ((D + 1 : Nat) : Rat) I (D + 1 + 1) none =
      (List.replicate (D + 1) { allowed := true, retryAfterMs := 0 } ++
        [{ allowed := false,
           retryAfterMs := Int.ceil ((1 : Rat) / (((D + 1 : Nat) : Rat) / I)) }],
       some { tokens := 0, lastRefill := t, capacity := ((D + 1 : Nat) : Rat),
              refillPerMs := ((D + 1 : Nat) : Rat) / I }) := by
    rw [consumeRun_add, hrunC]
    simp only [consumeRun, hreject]
  refine ⟨by rw [hrunC], ?_, ?_⟩
  · rw [hrunC1]
    simp [List.map_replicate]
  · rw [hrunC1]
    have hfull : (0 : Rat) + (t + I - t) * (((D + 1 : Nat) : Rat) / I) = ((D + 1 : Nat) : Rat) := by
      field_simp
    simp only [rateLimitConsumeLocal]
    rw [hfull]
    rw [if_neg (show ¬ (((D + 1 : Nat) : Rat) > ((D + 1 : Nat) : Rat)) from lt_irrefl _)]
    rw [if_neg (not_lt.mpr hC1)]

/-- Witness for C7 at capacity 2 and interval 1000 ms: two immediate calls
admitted, the third rejected, and a call 1000 ms later admitted again. -/
theorem rate_limiter_conservation_witness :
    ((consumeRun 0 2 1000 2 none).1 =
      List.replicate 2 { allowed := true, retryAfterMs := 0 }) ∧
    ((consumeRun 0 2 1000 3 none).1.map ConsumeResult.allowed =
      List.replicate 2 true ++ [false]) ∧
    ((rateLimitConsumeLocal (consumeRun 0 2 1000 3 none).2 (0 + 1000) 2 1000).1.allowed = true) := by
  have h := rate_limiter_conservation 2 (by norm_num) 0 1000 (by norm_num)
  simpa using h


/-- While upstream is not connected, client messages accumulate in the queue
in arrival order, emitting nothing. -/
theorem runClient_queue_phase (parseOk : String → Bool) (q msgs : List String)
    (rest : List ClientEvent) :
    runClient parseOk { connected := false, messageQueue := q }
        (msgs.map ClientEvent.clientMessage ++ rest) =
      runClient parseOk { connected := false, messageQueue := q ++ msgs } rest := by
  induction msgs generalizing q with
  | nil => simp
  | cons m ms ih =>
      have hstep : clientStep parseOk { connected := false, messageQueue := q }
          (ClientEvent.clientMessage m) =
          ({ connected := false, messageQueue := q ++ [m] }, []) := by
        simp [clientStep]
      simp only [List.map_cons, List.cons_append, runClient, hstep, List.append_eq]
      rw [ih (q ++ [m])]
      simp

/-- Once connected with an empty queue, each well-formed client message is
forwarded immediately, in order. -/
theorem runClient_active_phase (parseOk : String → Bool) (msgs : List String)
    (hall : ∀ m ∈ msgs, parseOk m = true) :
    runClient parseOk { connected := true, messageQueue := [] }
        (msgs.map ClientEvent.clientMessage) =
      ({ connected := true, messageQueue := [] }, msgs.map ClientOut.forwardUpstream) := by
  induction msgs with
  | nil => simp [runClient]
  | cons m ms ih =>
      have hm : parseOk m = true := hall m (by simp)
      have hms : ∀ x ∈ ms, parseOk x = true := fun x hx => hall x (by simp [hx])
      have hstep : clientStep parseOk { connected := true, messageQueue := [] }
          (ClientEvent.clientMessage m) =
          ({ connected := true, messageQueue := [] }, [ClientOut.forwardUpstream m]) := by
        simp [clientStep, hm]
      simp only [List.map_cons, runClient, hstep]
      rw [ih hms]
      simp

/-- C6: every sequence of messages arriving before the upstream connect
resolves is queued in arrival order and, once the connect resolves,
forwarded upstream in the original order exactly once — none dropped, none
duplicated — and messages arriving after the connect are forwarded after
them, preserving the overall order.  `parseOk` abstracts `JSON.parse`
success; parsing the empty string always fails in the source
(`JSON.parse("")` throws), hence the `parseOk "" = false` hypothesis, and
all messages in the scenario are assumed well-formed, which is what "none
dropped" ranges over (a malformed frame is logged and dropped by design). -/
theorem client_queue_flush_order (parseOk : String → Bool) (msgs1 msgs2 : List String)
    (h0 : parseOk "" = false) (hall : ∀ m ∈ msgs1 ++ msgs2, parseOk m = true) :
    (runClient parseOk clientInit
        (msgs1.map ClientEvent.clientMessage ++
          ClientEvent.connectResolved :: msgs2.map ClientEvent.clientMessage)).2 =
      (msgs1 ++ msgs2).map ClientOut.forwardUpstream := by
  have hall1 : ∀ m ∈ msgs1, parseOk m = true := fun m hm => hall m (by simp [hm])
  have hall2 : ∀ m ∈ msgs2, parseOk m = true := fun m hm => hall m (by simp [hm])
  have hne : ∀ m ∈ msgs1, m ≠ "" := by
    intro m hm he
    have := hall1 m hm
    rw [he, h0] at this
    exact Bool.false_ne_true this
  have hstart : clientInit = { connected := false, messageQueue := ([] : List String) } := rfl
  rw [hstart, runClient_queue_phase]
  simp only [List.nil_append, runClient, clientStep]
  rw [runClient_active_phase parseOk msgs2 hall2]
  have hfilter1 : msgs1.filter (fun m => m ≠ "") = msgs1 :=
    List.filter_eq_self.mpr (fun m hm => by simpa using hne m hm)
  have hfilter2 : msgs1.filter parseOk = msgs1 :=
    List.filter_eq_self.mpr (fun m hm => hall1 m hm)
  rw [hfilter1, hfilter2]
  simp

/-- Witness for C6: messages "a", "b" queued before the connect and "c"
after it are forwarded as "a", "b", "c", each exactly once. -/
theorem client_queue_flush_order_witness :
    (runClient (fun m => m != "") clientInit
        [ClientEvent.clientMessage "a", ClientEvent.clientMessage "b",
         ClientEvent.connectResolved, ClientEvent.clientMessage "c"]).2 =
      [ClientOut.forwardUpstream "a", ClientOut.forwardUpstream "b",
       ClientOut.forwardUpstream "c"] := by
  have h := client_queue_flush_order (fun m => m != "") ["a", "b"] ["c"]
    (by decide) (by decide)
  simpa using h

/-- The parameter loop never touches the greeting guard, the connected flag
or the pending-dispatch flag, and emits no response.create. -/
theorem processOneParam_fields (f : String → Option String) (s : BridgeState)
    (p : TwilioCustomParameter) :
    (processOneParam f s p).1.initialUserMessageSent = s.initialUserMessageSent ∧
    (processOneParam f s p).1.connected = s.connected ∧
    (processOneParam f s p).1.shouldSendInitialOnConnect = s.shouldSendInitialOnConnect ∧
    OutMsg.responseCreate ∉ (processOneParam f s p).2 := by
  simp only [processOneParam]
  repeat' split
  all_goals simp_all

/-- Same properties for the whole custom-parameter loop. -/
theorem processParams_fields (f : String → Option String) (ps : List TwilioCustomParameter)
    (s : BridgeState) :
    (processParams f s ps).1.initialUserMessageSent = s.initialUserMessageSent ∧
    (processParams f s ps).1.connected = s.connected ∧
    (processParams f s ps).1.shouldSendInitialOnConnect = s.shouldSendInitialOnConnect ∧
    OutMsg.responseCreate ∉ (processParams f s ps).2 := by
  induction ps generalizing s with
  | nil => simp [processParams]
  | cons p ps ih =>
      obtain ⟨h1, h2, h3, h4⟩ := processOneParam_fields f s p
      obtain ⟨g1, g2, g3, g4⟩ := ih (processOneParam f s p).1
      simp only [processParams]
      refine ⟨by rw [g1, h1], by rw [g2, h2], by rw [g3, h3], ?_⟩
      simp only [List.mem_append]
      rintro (h | h)
      · exact h4 h
      · exact g4 h

/-- The greeting fallback only writes `initialGreetingOverride`. -/
theorem applyGreetingDefault_fields (s : BridgeState) :
    (applyGreetingDefault s).initialUserMessageSent = s.initialUserMessageSent ∧
    (applyGreetingDefault s).connected = s.connected ∧
    (applyGreetingDefault s).shouldSendInitialOnConnect = s.shouldSendInitialOnConnect := by
  simp only [applyGreetingDefault]
  split <;> simp

/-- The at-most-once dispatcher: the guard is set after every call, the
other flags are untouched, at most one response.create is emitted, a call
with the guard already set is a no-op, and any emission implies the guard
was clear before the call. -/
theorem sendInitial_props (s : BridgeState) :
    (sendInitialConversationItem s).1.initialUserMessageSent = true ∧
    (sendInitialConversationItem s).1.connected = s.connected ∧
    (sendInitialConversationItem s).1.shouldSendInitialOnConnect = s.shouldSendInitialOnConnect ∧
    countResponseCreate (sendInitialConversationItem s).2 ≤ 1 ∧
    (s.initialUserMessageSent = true → sendInitialConversationItem s = (s, [])) := by
  by_cases h : s.initialUserMessageSent
  · simp [sendInitialConversationItem, h, countResponseCreate]
  · simp only [sendInitialConversationItem, h, Bool.false_eq_true, if_false]
    split <;> simp_all [countResponseCreate]

/-- `sendMark` only touches the mark FIFO and emits no response.create. -/
theorem sendMark_fields (s : BridgeState) :
    (sendMark s).1.initialUserMessageSent = s.initialUserMessageSent ∧
    (sendMark s).1.connected = s.connected ∧
    (sendMark s).1.shouldSendInitialOnConnect = s.shouldSendInitialOnConnect ∧
    countResponseCreate (sendMark s).2 = 0 := by
  cases h : s.streamSid <;> simp [sendMark, h, countResponseCreate]

/-- Flushing the queued Twilio frames re-emits only audio appends. -/
theorem count_flush_zero (q : List TwilioEvent) :
    countResponseCreate (q.filterMap fun e =>
      match e with
      | TwilioEvent.media _ payload => some (OutMsg.appendAudio payload)
      | _ => none) = 0 := by
  induction q with
  | nil => simp [countResponseCreate]
  | cons e es ih =>
      cases e <;> simp [List.filterMap_cons, countResponseCreate, List.count_cons] <;>
        simpa [countResponseCreate] using ih

/-- Non-start Twilio events never touch the greeting machinery and emit no
response.create. -/
theorem onTwilioMessage_nonstart (f : String → Option String) (s : BridgeState) (e : TwilioEvent)
    (hns : ∀ sid ps, e ≠ TwilioEvent.start sid ps) :
    (onTwilioMessage f s e).1.initialUserMessageSent = s.initialUserMessageSent ∧
    (onTwilioMessage f s e).1.connected = s.connected ∧
    (onTwilioMessage f s e).1.shouldSendInitialOnConnect = s.shouldSendInitialOnConnect ∧
    countResponseCreate (onTwilioMessage f s e).2 = 0 := by
  cases e with
  | start sid ps => exact absurd rfl (hns sid ps)
  | media ts payload =>
      by_cases hc : s.connected <;> simp [onTwilioMessage, hc, countResponseCreate]
  | mark =>
      by_cases hc : s.connected <;> by_cases hq : s.markQueue.length > 0 <;>
        simp [onTwilioMessage, hc, hq, countResponseCreate]
  | other ev =>
      by_cases hc : s.connected <;> simp [onTwilioMessage, hc, countResponseCreate]

/-- The start handler: the connected flag is read, not written; at most one
response.create is emitted; with the guard already set nothing is emitted;
and any emission implies the guard was clear and upstream already
connected. -/
theorem onStart_props (f : String → Option String) (s : BridgeState) (sid : Option String)
    (ps : List TwilioCustomParameter) :
    (s.initialUserMessageSent = true → (onStart f s sid ps).1.initialUserMessageSent = true) ∧
    (onStart f s sid ps).1.connected = s.connected ∧
    countResponseCreate (onStart f s sid ps).2 ≤ 1 ∧
    (s.initialUserMessageSent = true → countResponseCreate (onStart f s sid ps).2 = 0) ∧
    (OutMsg.responseCreate ∈ (onStart f s sid ps).2 →
      s.initialUserMessageSent = false ∧ s.connected = true) ∧
    (OutMsg.responseCreate ∈ (onStart f s sid ps).2 →
      (onStart f s sid ps).1.initialUserMessageSent = true) := by
  obtain ⟨p1, p2, p3, p4⟩ := processParams_fields f ps { s with streamSid := sid }
  obtain ⟨a1, a2, a3⟩ :=
    applyGreetingDefault_fields (processParams f { s with streamSid := sid } ps).1
  obtain ⟨i1, i2, i3, i4, i5⟩ :=
    sendInitial_props (applyGreetingDefault (processParams f { s with streamSid := sid } ps).1)
  have hsent :
      (applyGreetingDefault (processParams f { s with streamSid := sid } ps).1).initialUserMessageSent
        = s.initialUserMessageSent := by rw [a1, p1]
  have hconn :
      (applyGreetingDefault (processParams f { s with streamSid := sid } ps).1).connected
        = s.connected := by rw [a2, p2]
  have hcount1 :
      List.count OutMsg.responseCreate (processParams f { s with streamSid := sid } ps).2 = 0 :=
    List.count_eq_zero.mpr p4
  simp only [countResponseCreate] at i4
  by_cases hc : (applyGreetingDefault (processParams f { s with streamSid := sid } ps).1).connected
  · refine ⟨?_, ?_, ?_, ?_, ?_, ?_⟩
    · intro _
      simp [onStart, hc, i1]
    · simp only [onStart, hc, if_true]
      simpa [i2] using hconn
    · simp only [onStart, hc, if_true, countResponseCreate, List.count_append]
      have hz : List.count OutMsg.responseCreate [OutMsg.armTimeLimitTimer] = 0 := by simp
      omega
    · intro hs
      have hz := i5 (by rw [hsent]; exact hs)
      simp only [onStart, hc, if_true, hz, countResponseCreate, List.count_append]
      simp [hcount1]
    · intro hmem
      simp only [onStart, hc, if_true, List.mem_append] at hmem
      rcases hmem with (h | h) | h
      · exact absurd h p4
      · have hcz : s.connected = true := by rw [← hconn]; exact hc
        cases hcase : s.initialUserMessageSent with
        | false => exact ⟨rfl, hcz⟩
        | true =>
            have hz := i5 (by rw [hsent]; exact hcase)
            rw [hz] at h
            simp at h
      · simp at h
    · intro _
      simp [onStart, hc, i1]
  · have hb :
        (applyGreetingDefault (processParams f { s with streamSid := sid } ps).1).connected
          = false := by simpa using hc
    have hnomem : OutMsg.responseCreate ∉ (onStart f s sid ps).2 := by
      intro hmem
      simp only [onStart, hb, Bool.false_eq_true, if_false, List.mem_append] at hmem
      rcases hmem with (h | h) | h
      · exact absurd h p4
      · simp at h
      · simp at h
    refine ⟨?_, ?_, ?_, ?_, ?_, ?_⟩
    · intro hs
      simp only [onStart, hb, Bool.false_eq_true, if_false]
      simpa [hsent] using hs
    · simp only [onStart, hb, Bool.false_eq_true, if_false]
      rw [← hconn]
      exact hb.symm
    · simp only [onStart, hb, Bool.false_eq_true, if_false, countResponseCreate,
        List.count_append]
      simp [hcount1]
    · intro _
      simp only [onStart, hb, Bool.false_eq_true, if_false, countResponseCreate,
        List.count_append]
      simp [hcount1]
    · intro hmem
      exact absurd hmem hnomem
    · intro hmem
      exact absurd hmem hnomem

/-- Upstream events never touch the greeting machinery and emit no
response.create. -/
theorem onUpstreamEvent_props (s : BridgeState) (e : UpstreamEvent) :
    (onUpstreamEvent s e).1.initialUserMessageSent = s.initialUserMessageSent ∧
    (onUpstreamEvent s e).1.connected = s.connected ∧
    (onUpstreamEvent s e).1.shouldSendInitialOnConnect = s.shouldSendInitialOnConnect ∧
    countResponseCreate (onUpstreamEvent s e).2 = 0 := by
  cases e with
  | audioDelta itemId delta =>
      by_cases hd : delta = ""
      · simp [onUpstreamEvent, hd, countResponseCreate]
      · cases itemId <;> cases hjs : jsFalsyInt s.responseStartTimestampTwilio <;>
          cases hsid : s.streamSid <;>
          simp [onUpstreamEvent, hd, hjs, hsid, sendMark, countResponseCreate]
  | speechStarted =>
      by_cases hv : s.voicemailMode
      · simp [onUpstreamEvent, hv, countResponseCreate]
      · cases ha : s.responseStartTimestampTwilio with
        | none => simp [onUpstreamEvent, hv, handleSpeechStartedEvent, ha, countResponseCreate]
        | some t0 =>
            by_cases hq : s.markQueue.length > 0 <;>
              cases hi : s.lastAssistantItem <;>
              simp [onUpstreamEvent, hv, handleSpeechStartedEvent, ha, hq, hi,
                countResponseCreate]
  | responseDone =>
      by_cases hv : s.voicemailMode <;> by_cases htl : s.timeLimitClosing <;>
        simp [onUpstreamEvent, hv, htl, countResponseCreate]
  | other ev => simp [onUpstreamEvent, countResponseCreate]

/-- The connect continuation: it sets the connected flag, clears the
pending-dispatch flag, emits at most one response.create, emits none when
the guard is already set, and any emission implies the guard was clear and a
dispatch was pending. -/
theorem onConnectResolved_props (s : BridgeState) :
    (onConnectResolved s).1.connected = true ∧
    (s.initialUserMessageSent = true → (onConnectResolved s).1.initialUserMessageSent = true) ∧
    (onConnectResolved s).1.shouldSendInitialOnConnect = false ∧
    countResponseCreate (onConnectResolved s).2 ≤ 1 ∧
    (s.initialUserMessageSent = true → countResponseCreate (onConnectResolved s).2 = 0) ∧
    (OutMsg.responseCreate ∈ (onConnectResolved s).2 →
      s.initialUserMessageSent = false ∧ s.shouldSendInitialOnConnect = true) ∧
    (OutMsg.responseCreate ∈ (onConnectResolved s).2 →
      (onConnectResolved s).1.initialUserMessageSent = true) := by
  simp only [onConnectResolved]
  generalize hu : ({ s with connected := true } : BridgeState) = u
  have hu1 : u.initialUserMessageSent = s.initialUserMessageSent := by rw [← hu]
  have hu2 : u.shouldSendInitialOnConnect = s.shouldSendInitialOnConnect := by rw [← hu]
  have hu3 : u.connected = true := by rw [← hu]
  obtain ⟨i1, i2, i3, i4, i5⟩ := sendInitial_props u
  simp only [countResponseCreate] at i4
  by_cases hp : s.shouldSendInitialOnConnect
  · have hpu : u.shouldSendInitialOnConnect = true := by rw [hu2]; exact hp
    refine ⟨?_, ?_, ?_, ?_, ?_, ?_, ?_⟩
    · simp only [hp, if_true]
      simp [i2, hu3]
    · intro _
      simp [hp, i1]
    · simp [hp]
    · simp only [hp, if_true, countResponseCreate, List.count_append]
      have hf := count_flush_zero (sendInitialConversationItem u).1.twilioQueue
      simp only [countResponseCreate] at hf
      simp [hf]
      omega
    · intro hs
      have hz := i5 (by rw [hu1]; exact hs)
      simp only [hp, if_true, hz, countResponseCreate, List.count_append]
      have hf := count_flush_zero u.twilioQueue
      simp only [countResponseCreate] at hf
      simp [hf]
    · intro hmem
      simp only [hp, if_true, List.mem_append] at hmem
      rcases hmem with (h | h) | h
      · simp at h
      · cases hcase : s.initialUserMessageSent with
        | false => exact ⟨rfl, hp⟩
        | true =>
            have hz := i5 (by rw [hu1]; exact hcase)
            rw [hz] at h
            simp at h
      · have hf := count_flush_zero (sendInitialConversationItem u).1.twilioQueue
        simp only [countResponseCreate, List.count_eq_zero] at hf
        exact absurd h hf
    · intro _
      simp [hp, i1]
  · have hb : s.shouldSendInitialOnConnect = false := by simpa using hp
    refine ⟨?_, ?_, ?_, ?_, ?_, ?_, ?_⟩
    · simp [hb, hu3]
    · intro hs
      simp [hb, hu1, hs]
    · simp only [hb, Bool.false_eq_true, if_false]
      simp [hu2, hb]
    · simp only [hb, Bool.false_eq_true, if_false, countResponseCreate, List.count_append]
      have hf := count_flush_zero u.twilioQueue
      simp only [countResponseCreate] at hf
      simp [hf]
    · intro _
      simp only [hb, Bool.false_eq_true, if_false, countResponseCreate, List.count_append]
      have hf := count_flush_zero u.twilioQueue
      simp only [countResponseCreate] at hf
      simp [hf]
    · intro hmem
      simp only [hb, Bool.false_eq_true, if_false, List.mem_append] at hmem
      rcases hmem with (h | h) | h
      · simp at h
      · simp at h
      · have hf := count_flush_zero u.twilioQueue
        simp only [countResponseCreate, List.count_eq_zero] at hf
        exact absurd h hf
    · intro hmem
      simp only [hb, Bool.false_eq_true, if_false, List.mem_append] at hmem
      rcases hmem with (h | h) | h
      · simp at h
      · simp at h
      · have hf := count_flush_zero u.twilioQueue
        simp only [countResponseCreate, List.count_eq_zero] at hf
        exact absurd h hf

/-- One step of the bridge, away from the time-limit timer: the greeting
guard is monotone; the connected flag changes only at connect resolution;
the pending-dispatch flag is raised only by a start event; at most one
response.create is emitted, and none once the guard is set; and any
response.create emission happens with the guard clear — setting it — and
either inside a start event while upstream is already connected, or at
connect resolution with a dispatch pending. -/
theorem bridgeStep_props (f : String → Option String) (s : BridgeState) (e : SessionEvent)
    (he : e ≠ SessionEvent.timeLimitFired) :
    (s.initialUserMessageSent = true → (bridgeStep f s e).1.initialUserMessageSent = true) ∧
    (e ≠ SessionEvent.connectResolved → (bridgeStep f s e).1.connected = s.connected) ∧
    (s.shouldSendInitialOnConnect = false →
      (∀ sid ps, e ≠ SessionEvent.fromTwilio (TwilioEvent.start sid ps)) →
      (bridgeStep f s e).1.shouldSendInitialOnConnect = false) ∧
    countResponseCreate (bridgeStep f s e).2 ≤ 1 ∧
    (s.initialUserMessageSent = true → countResponseCreate (bridgeStep f s e).2 = 0) ∧
    (OutMsg.responseCreate ∈ (bridgeStep f s e).2 →
      s.initialUserMessageSent = false ∧
      (bridgeStep f s e).1.initialUserMessageSent = true ∧
      ((∃ sid ps, e = SessionEvent.fromTwilio (TwilioEvent.start sid ps)) ∧ s.connected = true ∨
       e = SessionEvent.connectResolved ∧ s.shouldSendInitialOnConnect = true)) := by
  cases e with
  | fromTwilio te =>
      cases te with
      | start sid ps =>
          by_cases hc : s.connected
          · have hstep : bridgeStep f s (SessionEvent.fromTwilio (TwilioEvent.start sid ps)) =
                onStart f s sid ps := by
              simp [bridgeStep, onTwilioMessage, hc]
            obtain ⟨o1, o2, o3, o4, o5, o6⟩ := onStart_props f s sid ps
            rw [hstep]
            exact ⟨o1, fun _ => o2, fun _ hns => absurd rfl (hns sid ps), o3, o4,
              fun hmem => ⟨(o5 hmem).1, o6 hmem, Or.inl ⟨⟨sid, ps, rfl⟩, (o5 hmem).2⟩⟩⟩
          · have hstep : bridgeStep f s (SessionEvent.fromTwilio (TwilioEvent.start sid ps)) =
                onStart f { s with twilioQueue := s.twilioQueue ++ [TwilioEvent.start sid ps] }
                  sid ps := by
              simp [bridgeStep, onTwilioMessage, hc]
            obtain ⟨o1, o2, o3, o4, o5, o6⟩ := onStart_props f
              { s with twilioQueue := s.twilioQueue ++ [TwilioEvent.start sid ps] } sid ps
            rw [hstep]
            exact ⟨o1, fun _ => o2, fun _ hns => absurd rfl (hns sid ps), o3, o4,
              fun hmem => ⟨(o5 hmem).1, o6 hmem, Or.inl ⟨⟨sid, ps, rfl⟩, (o5 hmem).2⟩⟩⟩
      | media ts payload =>
          rw [show bridgeStep f s (SessionEvent.fromTwilio (TwilioEvent.media ts payload)) =
            onTwilioMessage f s (TwilioEvent.media ts payload) from rfl]
          obtain ⟨o1, o2, o3, o4⟩ := onTwilioMessage_nonstart f s (TwilioEvent.media ts payload)
            (by intro sid ps h; cases h)
          refine ⟨fun hs => by rw [o1]; exact hs, fun _ => o2, fun hs _ => by rw [o3]; exact hs,
            by omega, fun _ => o4, ?_⟩
          · intro hmem
            simp only [countResponseCreate, List.count_eq_zero] at o4
            exact absurd hmem o4
      | mark =>
          rw [show bridgeStep f s (SessionEvent.fromTwilio TwilioEvent.mark) =
            onTwilioMessage f s TwilioEvent.mark from rfl]
          obtain ⟨o1, o2, o3, o4⟩ := onTwilioMessage_nonstart f s TwilioEvent.mark
            (by intro sid ps h; cases h)
          refine ⟨fun hs => by rw [o1]; exact hs, fun _ => o2, fun hs _ => by rw [o3]; exact hs,
            by omega, fun _ => o4, ?_⟩
          · intro hmem
            simp only [countResponseCreate, List.count_eq_zero] at o4
            exact absurd hmem o4
      | other ev =>
          rw [show bridgeStep f s (SessionEvent.fromTwilio (TwilioEvent.other ev)) =
            onTwilioMessage f s (TwilioEvent.other ev) from rfl]
          obtain ⟨o1, o2, o3, o4⟩ := onTwilioMessage_nonstart f s (TwilioEvent.other ev)
            (by intro sid ps h; cases h)
          refine ⟨fun hs => by rw [o1]; exact hs, fun _ => o2, fun hs _ => by rw [o3]; exact hs,
            by omega, fun _ => o4, ?_⟩
          · intro hmem
            simp only [countResponseCreate, List.count_eq_zero] at o4
            exact absurd hmem o4
  | fromUpstream ue =>
      rw [show bridgeStep f s (SessionEvent.fromUpstream ue) = onUpstreamEvent s ue from rfl]
      obtain ⟨o1, o2, o3, o4⟩ := onUpstreamEvent_props s ue
      refine ⟨fun hs => by rw [o1]; exact hs, fun _ => o2, fun hs _ => by rw [o3]; exact hs,
        by omega, fun _ => o4, ?_⟩
      · intro hmem
        simp only [countResponseCreate, List.count_eq_zero] at o4
        exact absurd hmem o4
  | connectResolved =>
      rw [show bridgeStep f s SessionEvent.connectResolved = onConnectResolved s from rfl]
      obtain ⟨c1, c2, c3, c4, c5, c6, c7⟩ := onConnectResolved_props s
      exact ⟨c2, fun hne => absurd rfl hne, fun _ _ => c3, c4, c5,
        fun hmem => ⟨(c6 hmem).1, c7 hmem, Or.inr ⟨rfl, (c6 hmem).2⟩⟩⟩
  | timeLimitFired => exact absurd rfl he

/-- Once the greeting guard is set, no later step (away from the time-limit
timer) emits a response.create. -/
theorem runBridge_count_zero (f : String → Option String) (tr : List SessionEvent)
    (s : BridgeState) (hs : s.initialUserMessageSent = true)
    (hTL : SessionEvent.timeLimitFired ∉ tr) :
    countResponseCreate (runBridge f s tr).2 = 0 := by
  induction tr generalizing s with
  | nil => simp [runBridge, countResponseCreate]
  | cons e es ih =>
      have he : e ≠ SessionEvent.timeLimitFired := fun h => hTL (by simp [h])
      have hTLes : SessionEvent.timeLimitFired ∉ es := fun h => hTL (by simp [h])
      obtain ⟨b1, _, _, _, b5, _⟩ := bridgeStep_props f s e he
      have h1 := b5 hs
      have h2 := ih (bridgeStep f s e).1 (b1 hs) hTLes
      simp only [runBridge, countResponseCreate, List.count_append]
      simp only [countResponseCreate] at h1 h2
      omega

/-- At most one response.create is emitted along any trace without a
time-limit firing. -/
theorem runBridge_count_le_one (f : String → Option String) (tr : List SessionEvent)
    (s : BridgeState) (hTL : SessionEvent.timeLimitFired ∉ tr) :
    countResponseCreate (runBridge f s tr).2 ≤ 1 := by
  induction tr generalizing s with
  | nil => simp [runBridge, countResponseCreate]
  | cons e es ih =>
      have he : e ≠ SessionEvent.timeLimitFired := fun h => hTL (by simp [h])
      have hTLes : SessionEvent.timeLimitFired ∉ es := fun h => hTL (by simp [h])
      obtain ⟨b1, _, _, b4, _, b6⟩ := bridgeStep_props f s e he
      simp only [runBridge, countResponseCreate, List.count_append]
      by_cases hzero : List.count OutMsg.responseCreate (bridgeStep f s e).2 = 0
      · have h2 := ih (bridgeStep f s e).1 hTLes
        simp only [countResponseCreate] at h2
        omega
      · have hmem : OutMsg.responseCreate ∈ (bridgeStep f s e).2 :=
          List.count_pos_iff.mp (Nat.pos_of_ne_zero hzero)
        obtain ⟨_, hpost, _⟩ := b6 hmem
        have h2 := runBridge_count_zero f es (bridgeStep f s e).1 hpost hTLes
        simp only [countResponseCreate] at b4 h2
        omega

/-- Without a connect-resolution event the connected flag stays down. -/
theorem runBridge_connected_false (f : String → Option String) (tr : List SessionEvent)
    (s : BridgeState) (hs : s.connected = false)
    (hnc : SessionEvent.connectResolved ∉ tr)
    (hTL : SessionEvent.timeLimitFired ∉ tr) :
    (runBridge f s tr).1.connected = false := by
  induction tr generalizing s with
  | nil => simpa [runBridge] using hs
  | cons e es ih =>
      have he : e ≠ SessionEvent.timeLimitFired := fun h => hTL (by simp [h])
      have hne : e ≠ SessionEvent.connectResolved := fun h => hnc (by simp [h])
      have hnces : SessionEvent.connectResolved ∉ es := fun h => hnc (by simp [h])
      have hTLes : SessionEvent.timeLimitFired ∉ es := fun h => hTL (by simp [h])
      obtain ⟨_, b2, _, _, _, _⟩ := bridgeStep_props f s e he
      simp only [runBridge]
      exact ih (bridgeStep f s e).1 (by rw [b2 hne]; exact hs) hnces hTLes

/-- Without a start event the pending-dispatch flag stays down. -/
theorem runBridge_shouldSend_false (f : String → Option String) (tr : List SessionEvent)
    (s : BridgeState) (hs : s.shouldSendInitialOnConnect = false)
    (hnst : ∀ sid ps, SessionEvent.fromTwilio (TwilioEvent.start sid ps) ∉ tr)
    (hTL : SessionEvent.timeLimitFired ∉ tr) :
    (runBridge f s tr).1.shouldSendInitialOnConnect = false := by
  induction tr generalizing s with
  | nil => simpa [runBridge] using hs
  | cons e es ih =>
      have he : e ≠ SessionEvent.timeLimitFired := fun h => hTL (by simp [h])
      have hnste : ∀ sid ps, e ≠ SessionEvent.fromTwilio (TwilioEvent.start sid ps) :=
        fun sid ps h => hnst sid ps (by simp [h])
      have hnstes : ∀ sid ps, SessionEvent.fromTwilio (TwilioEvent.start sid ps) ∉ es :=
        fun sid ps h => hnst sid ps (by simp [h])
      have hTLes : SessionEvent.timeLimitFired ∉ es := fun h => hTL (by simp [h])
      obtain ⟨_, _, b3, _, _, _⟩ := bridgeStep_props f s e he
      simp only [runBridge]
      exact ih (bridgeStep f s e).1 (b3 hs hnste) hnstes hTLes

/-- C1: along every session trace without a time-limit firing (the
time-limit path emits its own, unrelated, response.create), the initial
greeting — the unique source of response.create events — is dispatched at
most once, and any step that dispatches it happens only once both the
connect resolution and a telephony start event (whose handler reads the
session-start parameters before dispatching) have already been delivered,
regardless of the order in which those two arrive. -/
theorem initial_greeting_dispatch_guard (f : String → Option String) (directionParam : String)
    (tr : List SessionEvent) (hTL : SessionEvent.timeLimitFired ∉ tr) :
    countResponseCreate (runBridge f (initialBridgeState directionParam) tr).2 ≤ 1 ∧
    (∀ pre e post, tr = pre ++ e :: post →
      OutMsg.responseCreate ∈
        (bridgeStep f (runBridge f (initialBridgeState directionParam) pre).1 e).2 →
      SessionEvent.connectResolved ∈ pre ++ [e] ∧
      ∃ sid ps, SessionEvent.fromTwilio (TwilioEvent.start sid ps) ∈ pre ++ [e]) := by
  constructor
  · exact runBridge_count_le_one f tr _ hTL
  · intro pre e post hsplit hmem
    have hTLpre : SessionEvent.timeLimitFired ∉ pre := by
      intro h
      exact hTL (by rw [hsplit]; exact List.mem_append_left _ h)
    have heTL : e ≠ SessionEvent.timeLimitFired := by
      intro h
      exact hTL (by rw [hsplit, ← h]; exact List.mem_append_right _ (by simp))
    obtain ⟨_, _, _, _, _, b6⟩ :=
      bridgeStep_props f (runBridge f (initialBridgeState directionParam) pre).1 e heTL
    obtain ⟨_, _, hcase⟩ := b6 hmem
    rcases hcase with ⟨⟨sid, ps, rfl⟩, hconn⟩ | ⟨rfl, hshould⟩
    · constructor
      · by_contra hnc
        have hncpre : SessionEvent.connectResolved ∉ pre := fun h =>
          hnc (List.mem_append_left _ h)
        have hfalse := runBridge_connected_false f pre (initialBridgeState directionParam)
          rfl hncpre hTLpre
        rw [hfalse] at hconn
        exact Bool.false_ne_true hconn
      · exact ⟨sid, ps, List.mem_append_right _ (by simp)⟩
    · constructor
      · exact List.mem_append_right _ (by simp)
      · by_contra hnst
        push_neg at hnst
        have hnstpre : ∀ sid ps, SessionEvent.fromTwilio (TwilioEvent.start sid ps) ∉ pre :=
          fun sid ps h => hnst sid ps (List.mem_append_left _ h)
        have hfalse := runBridge_shouldSend_false f pre (initialBridgeState directionParam)
          rfl hnstpre hTLpre
        rw [hfalse] at hshould
        exact Bool.false_ne_true hshould

/-- Witness for C1 on a concrete trace: the start event arrives before the
connect resolves, the greeting is dispatched exactly once (at the connect
resolution), and both readiness conditions hold at the dispatch point. -/
theorem initial_greeting_dispatch_guard_witness :
    countResponseCreate
      (runBridge (fun _ => none) (initialBridgeState "outbound")
        [SessionEvent.fromTwilio (TwilioEvent.start (some "MZ123") []),
         SessionEvent.connectResolved]).2 ≤ 1 ∧
    (∀ pre e post,
      ([SessionEvent.fromTwilio (TwilioEvent.start (some "MZ123") []),
        SessionEvent.connectResolved] : List SessionEvent) = pre ++ e :: post →
      OutMsg.responseCreate ∈
        (bridgeStep (fun _ => none)
          (runBridge (fun _ => none) (initialBridgeState "outbound") pre).1 e).2 →
      SessionEvent.connectResolved ∈ pre ++ [e] ∧
      ∃ sid ps, SessionEvent.fromTwilio (TwilioEvent.start sid ps) ∈ pre ++ [e]) :=
  initial_greeting_dispatch_guard (fun _ => none) "outbound"
    [SessionEvent.fromTwilio (TwilioEvent.start (some "MZ123") []),
     SessionEvent.connectResolved] (by decide)

end RaickyRelay
